import Mathlib

/-!
Verification of the PocPlot axis / spline core against its specification.

The C sources are shallowly embedded as follows.

* `gdouble` values stored in object state are modelled as `ℚ` (exact real
  arithmetic on finite values; every operation the claims exercise stays
  within rational arithmetic, so `ℚ` is an exact model of the ideal real
  semantics of the code).
* A computation that can produce a non-finite double (NaN or ±infinity,
  which for the code at hand arises exactly from a division whose
  denominator is zero) is modelled with `Option ℚ`: `none` stands for
  "not a finite number".  IEEE arithmetic propagates non-finiteness
  through the subsequent multiplications and subtractions performed by
  `poc_axis_linear_project`, so collapsing all non-finite values to
  `none` is faithful for the properties considered here.
* The libm transforms `log2` and `log10` applied by the axis mode are
  not rational; they enter the model as parameters `(l2 l10 : ℚ → ℚ)`.
  All theorems hold for every choice of these parameters, hence in
  particular for the true logarithms.
* `gint` is modelled as `ℤ`, `guint` as `ℕ`.
-/

namespace PocPlot

/-! ## Axis data model (src/pocaxis.c) -/

/-- The `PocAxisMode` enumeration from pocaxis.h. -/
inductive PocAxisMode where
  | linear
  | logOctave
  | logDecade
deriving Repr, DecidableEq

/-- The fields of `PocAxisPrivate` (src/pocaxis.c) that the numeric core
reads and writes.  Presentation fields (tick sizes, grid styles, legend)
and the optional adjustment are omitted: no claim touches them, and all
modelled states correspond to an axis with no adjustment attached. -/
structure PocAxis where
  axis_mode : PocAxisMode
  lower_bound : ℚ
  upper_bound : ℚ
  lower_mode : ℚ
  upper_mode : ℚ
  major_interval : ℚ
  auto_interval : Bool
  minor_divisions : ℕ
  minor_interval : ℚ
deriving Repr, DecidableEq

/-- First block of `poc_axis_update_bounds` (src/pocaxis.c lines
1017-1025): if `upper_bound < lower_bound`, swap the two (with a
warning; the swap is the only state change). -/
def poc_axis_swap_bounds (a : PocAxis) : PocAxis :=
  if a.upper_bound < a.lower_bound then
    { a with lower_bound := a.upper_bound, upper_bound := a.lower_bound }
  else a

/-- Second block of `poc_axis_update_bounds` (src/pocaxis.c lines
1027-1041): recompute `lower_mode`/`upper_mode` from the bounds using
the mode transform.  `l2` and `l10` stand for the libm functions `log2`
and `log10`. -/
def poc_axis_mode_bounds (l2 l10 : ℚ → ℚ) (a : PocAxis) : PocAxis :=
  match a.axis_mode with
  | .linear => { a with lower_mode := a.lower_bound, upper_mode := a.upper_bound }
  | .logOctave => { a with lower_mode := l2 a.lower_bound, upper_mode := l2 a.upper_bound }
  | .logDecade => { a with lower_mode := l10 a.lower_bound, upper_mode := l10 a.upper_bound }

/-- Third block of `poc_axis_update_bounds` (src/pocaxis.c lines
1043-1057): when `auto_interval` is set, pick `major_interval` from the
descending ladder of `else if` tests on
`interval = upper_mode - lower_mode`. -/
def poc_axis_pick_interval (a : PocAxis) : PocAxis :=
  if a.auto_interval then
    let interval := a.upper_mode - a.lower_mode
    { a with major_interval :=
        if 10000 ≤ interval then 10000
        else if 1000 ≤ interval then 1000
        else if 100 ≤ interval then 100
        else if 10 ≤ interval then 10
        else 1 }
  else a

/-- Fourth block of `poc_axis_update_bounds` (src/pocaxis.c lines
1058-1059): recompute `minor_interval` when `minor_divisions` is
nonzero. -/
def poc_axis_minor (a : PocAxis) : PocAxis :=
  if a.minor_divisions ≠ 0 then
    { a with minor_interval := a.major_interval / (a.minor_divisions : ℚ) }
  else a

/-- `poc_axis_update_bounds` (src/pocaxis.c lines 1011-1060): the four
blocks in source order. -/
def poc_axis_update_bounds (l2 l10 : ℚ → ℚ) (a : PocAxis) : PocAxis :=
  poc_axis_minor (poc_axis_pick_interval (poc_axis_mode_bounds l2 l10 (poc_axis_swap_bounds a)))

/-- `poc_axis_configure` (src/pocaxis.c lines 1073-1093): store mode and
both bounds, then recompute the derived state. -/
def poc_axis_configure (l2 l10 : ℚ → ℚ) (a : PocAxis) (mode : PocAxisMode)
    (lower upper : ℚ) : PocAxis :=
  poc_axis_update_bounds l2 l10
    { a with lower_bound := lower, upper_bound := upper, axis_mode := mode }

/-- `poc_axis_set_lower_bound` (src/pocaxis.c lines 440-455), state part
(the adjustment push is outside the model since no adjustment is
attached). -/
def poc_axis_set_lower_bound (l2 l10 : ℚ → ℚ) (a : PocAxis) (b : ℚ) : PocAxis :=
  poc_axis_update_bounds l2 l10 { a with lower_bound := b }

/-- `poc_axis_set_upper_bound` (src/pocaxis.c lines 484-499), state part. -/
def poc_axis_set_upper_bound (l2 l10 : ℚ → ℚ) (a : PocAxis) (b : ℚ) : PocAxis :=
  poc_axis_update_bounds l2 l10 { a with upper_bound := b }

/-- `poc_axis_set_axis_mode` (src/pocaxis.c lines 398-411). -/
def poc_axis_set_axis_mode (l2 l10 : ℚ → ℚ) (a : PocAxis) (m : PocAxisMode) : PocAxis :=
  poc_axis_update_bounds l2 l10 { a with axis_mode := m }

/-- `poc_axis_set_major_interval` (src/pocaxis.c lines 628-643): stores
the interval, clears `auto_interval`, then updates. -/
def poc_axis_set_major_interval (l2 l10 : ℚ → ℚ) (a : PocAxis) (i : ℚ) : PocAxis :=
  poc_axis_update_bounds l2 l10 { a with major_interval := i, auto_interval := false }

/-- `poc_axis_set_auto_interval` (src/pocaxis.c lines 672-685). -/
def poc_axis_set_auto_interval (l2 l10 : ℚ → ℚ) (a : PocAxis) (e : Bool) : PocAxis :=
  poc_axis_update_bounds l2 l10 { a with auto_interval := e }

/-- `poc_axis_set_minor_divisions` (src/pocaxis.c lines 714-727). -/
def poc_axis_set_minor_divisions (l2 l10 : ℚ → ℚ) (a : PocAxis) (d : ℕ) : PocAxis :=
  poc_axis_update_bounds l2 l10 { a with minor_divisions := d }

/-- The state-mutating axis operations that recompute derived bounds
state, as one sum type, so that theorems can quantify over "any
operation that recomputes derived state". -/
inductive AxisOp where
  | configure (mode : PocAxisMode) (lower upper : ℚ)
  | setLowerBound (b : ℚ)
  | setUpperBound (b : ℚ)
  | setMode (m : PocAxisMode)
  | setMajorInterval (i : ℚ)
  | setAutoInterval (e : Bool)
  | setMinorDivisions (d : ℕ)

/-- Dispatch an `AxisOp` to the corresponding entry point. -/
def applyAxisOp (l2 l10 : ℚ → ℚ) (a : PocAxis) : AxisOp → PocAxis
  | .configure mode lower upper => poc_axis_configure l2 l10 a mode lower upper
  | .setLowerBound b => poc_axis_set_lower_bound l2 l10 a b
  | .setUpperBound b => poc_axis_set_upper_bound l2 l10 a b
  | .setMode m => poc_axis_set_axis_mode l2 l10 a m
  | .setMajorInterval i => poc_axis_set_major_interval l2 l10 a i
  | .setAutoInterval e => poc_axis_set_auto_interval l2 l10 a e
  | .setMinorDivisions d => poc_axis_set_minor_divisions l2 l10 a d

/-! ## Axis projection (src/pocaxis.c lines 1172-1216) -/

/-- `poc_axis_linear_project` (src/pocaxis.c lines 1205-1216):
`scale = |norm| - 1`, `t = (value - lower_mode) / (upper_mode - lower_mode)`,
result `(1 - t) * scale` for negative `norm`, else `t * scale`.
When `upper_mode - lower_mode = 0` the C division yields a non-finite
double (NaN or ±infinity) which propagates through the remaining
arithmetic; the model returns `none` in that case. -/
def poc_axis_linear_project (a : PocAxis) (value : ℚ) (norm : ℤ) : Option ℚ :=
  let scale : ℚ := ((if norm < 0 then -norm else norm : ℤ) : ℚ) - 1
  if a.upper_mode - a.lower_mode = 0 then none
  else
    let t := (value - a.lower_mode) / (a.upper_mode - a.lower_mode)
    some (if norm < 0 then (1 - t) * scale else t * scale)

/-- `poc_axis_project` (src/pocaxis.c lines 1172-1191): apply the mode
transform to `value`, then delegate to `poc_axis_linear_project`. -/
def poc_axis_project (l2 l10 : ℚ → ℚ) (a : PocAxis) (value : ℚ) (norm : ℤ) :
    Option ℚ :=
  let value :=
    match a.axis_mode with
    | .linear => value
    | .logOctave => l2 value
    | .logDecade => l10 value
  poc_axis_linear_project a value norm

/-! ## Grid generation (src/pocaxis.c lines 1247-1305)

The drawing side effects (cairo calls) are abstracted away: the model
records, in order, the mode-space positions `xy` handed to
`poc_axis_draw_grid_line`. -/

/-- The accumulating `for` loops of `poc_axis_draw_grid`
(`for (xy = start; xy <= stop  resp.  xy < stop; xy += step)`),
returning the sequence of loop-variable values.  `inclusive` selects
between the `<=` and `<` loop conditions.  The C loop terminates only
for positive `step`; the model returns `[]` when `step ≤ 0`. -/
def grid_loop (stop step : ℚ) (inclusive : Bool) (cur : ℚ) : List ℚ :=
  if h : 0 < step ∧ (if inclusive then cur ≤ stop else cur < stop) then
    cur :: grid_loop stop step inclusive (cur + step)
  else
    []
termination_by (⌈(stop + step - cur) / step⌉).toNat
decreasing_by
  rcases h with ⟨hstep, hcur⟩
  have hcond : cur ≤ stop := by
    rcases inclusive with _ | _
    · simp only [Bool.false_eq_true, if_false] at hcur
      exact le_of_lt hcur
    · simpa using hcur
  have hone : (1 : ℚ) ≤ (stop + step - cur) / step := by
    rw [le_div_iff₀ hstep]
    linarith
  have hrw : (stop + step - (cur + step)) / step = (stop + step - cur) / step - 1 := by
    field_simp
    ring
  rw [hrw, Int.ceil_sub_one]
  have hceil : (1 : ℤ) ≤ ⌈(stop + step - cur) / step⌉ := by
    exact_mod_cast Int.le_ceil_iff.mpr (by push_cast; linarith)
  omega

/-- `lower_floor` as computed at src/pocaxis.c line 1270:
`floor (lower_mode / major_interval) * major_interval`. -/
def poc_axis_grid_lower_floor (a : PocAxis) : ℚ :=
  (⌊a.lower_mode / a.major_interval⌋ : ℚ) * a.major_interval

/-- Positions of the major grid lines (src/pocaxis.c lines 1275-1278):
`xy` from `lower_floor` while `xy ≤ ceil (upper_mode)`, step
`major_interval`. -/
def poc_axis_major_grid_xs (a : PocAxis) : List ℚ :=
  grid_loop ((⌈a.upper_mode⌉ : ℤ) : ℚ) a.major_interval true (poc_axis_grid_lower_floor a)

/-- The outer loop of the minor-grid pass (src/pocaxis.c line 1288):
`xy` from `lower_floor` while `xy ≤ upper_mode` (note: not the ceiling),
step `major_interval`. -/
def poc_axis_minor_decade_xs (a : PocAxis) : List ℚ :=
  grid_loop a.upper_mode a.major_interval true (poc_axis_grid_lower_floor a)

/-- Positions of the minor grid lines (src/pocaxis.c lines 1286-1298):
nothing when `minor_divisions = 0`; otherwise, for each outer position
`xy`, in LogDecade mode the inner loop `for (mxy = 2.0; mxy < 10.0;
mxy += 1.0)` emits `xy + log10 mxy`, and in the other modes the inner
loop `for (mxy = minor_interval; mxy < major_interval;
mxy += minor_interval)` emits `xy + mxy`. -/
def poc_axis_minor_grid_xs (l10 : ℚ → ℚ) (a : PocAxis) : List ℚ :=
  if a.minor_divisions ≠ 0 then
    (poc_axis_minor_decade_xs a).flatMap (fun xy =>
      match a.axis_mode with
      | .logDecade => (grid_loop 10 1 false 2).map (fun mxy => xy + l10 mxy)
      | _ => (grid_loop a.major_interval a.minor_interval false a.minor_interval).map
               (fun mxy => xy + mxy))
  else []

/-! ## Spline engine (src/pocspline.c) -/

/-- A `PocPoint` (poctypes.h): an x/y pair of doubles. -/
abbrev PocPoint : Type := ℚ × ℚ

/-- `point[i].x` for a point array modelled as a list (reads past the
end of the C array are modelled by the default value 0). -/
def ptx (pts : List PocPoint) (i : ℕ) : ℚ :=
  (pts.getD i (0, 0)).1

/-- `point[i].y`. -/
def pty (pts : List PocPoint) (i : ℕ) : ℚ :=
  (pts.getD i (0, 0)).2

/-- The binary-search loop of `spline_eval` (src/pocspline.c lines
63-72): while `k_hi - k_lo > 1`, bisect at `k = (k_hi + k_lo) / 2` and
shrink to the half containing `val`.  Returns the final
`(k_lo, k_hi)`. -/
def spline_search (pts : List PocPoint) (val : ℚ) (k_lo k_hi : ℕ) : ℕ × ℕ :=
  if 1 < k_hi - k_lo then
    if val < ptx pts ((k_hi + k_lo) / 2) then
      spline_search pts val k_lo ((k_hi + k_lo) / 2)
    else
      spline_search pts val ((k_hi + k_lo) / 2) k_hi
  else (k_lo, k_hi)
termination_by k_hi - k_lo
decreasing_by
  · omega
  · omega

/-- `spline_eval` (src/pocspline.c lines 57-79): binary search for the
bracketing knot interval, then the cubic interpolation formula
`a*y_lo + b*y_hi + ((a³-a)*y2_lo + (b³-b)*y2_hi) * h² / 6`. -/
def spline_eval (n : ℕ) (pts : List PocPoint) (y2 : List ℚ) (val : ℚ) : ℚ :=
  let kr := spline_search pts val 0 (n - 1)
  let k_lo := kr.1
  let k_hi := kr.2
  let h := ptx pts k_hi - ptx pts k_lo
  let a := (ptx pts k_hi - val) / h
  let b := (val - ptx pts k_lo) / h
  a * pty pts k_lo + b * pty pts k_hi
    + ((a * a * a - a) * y2.getD k_lo 0 + (b * b * b - b) * y2.getD k_hi 0)
      * (h * h) / 6

/-- `spline_solve` (src/pocspline.c lines 31-55): the natural-cubic-
spline tridiagonal solve.  `y2[0] = y2[n-1] = u[0] = 0`; the forward
pass fills `y2[i]` and `u[i]` for `i = 1 .. n-2`; the backward pass
substitutes `y2[k] = y2[k]*y2[k+1] + u[k]` for `k = n-2 .. 1`.
The result is the list of the `n` second derivatives. -/
def spline_solve (n : ℕ) (pts : List PocPoint) : List ℚ :=
  let y0 : Array ℚ := Array.mkArray n 0
  let u0 : Array ℚ := Array.mkArray (n - 1) 0
  let fwd :=
    (List.range' 1 (n - 2)).foldl
      (fun (st : Array ℚ × Array ℚ) i =>
        let sig := (ptx pts i - ptx pts (i - 1)) / (ptx pts (i + 1) - ptx pts (i - 1))
        let p := sig * st.1.getD (i - 1) 0 + 2
        let y2 := st.1.set! i ((sig - 1) / p)
        let t0 := (pty pts (i + 1) - pty pts i) / (ptx pts (i + 1) - ptx pts i)
                  - (pty pts i - pty pts (i - 1)) / (ptx pts i - ptx pts (i - 1))
        let u := st.2.set! i ((6 * t0 / (ptx pts (i + 1) - ptx pts (i - 1))
                               - sig * st.2.getD (i - 1) 0) / p)
        (y2, u))
      (y0, u0)
  let back :=
    (List.range' 1 (n - 2)).reverse.foldl
      (fun y2 k => y2.set! k (y2.getD k 0 * y2.getD (k + 1) 0 + fwd.2.getD k 0))
      fwd.1
  back.toList

/-- The sampling loop of `poc_spline_get_vector` (src/pocspline.c lines
111-118): `count` iterations, evaluating at `rx` and advancing
`rx += dx` each time; collects the Y values. -/
def poc_spline_sample_ys (n : ℕ) (pts : List PocPoint) (y2 : List ℚ) (dx : ℚ) :
    ℕ → ℚ → List ℚ
  | 0, _ => []
  | count + 1, rx => spline_eval n pts y2 rx :: poc_spline_sample_ys n pts y2 dx count (rx + dx)

/-- The sampling loop of `poc_spline_get_points` (src/pocspline.c lines
156-164): same iteration, collecting `(rx, y)` pairs. -/
def poc_spline_sample_pts (n : ℕ) (pts : List PocPoint) (y2 : List ℚ) (dx : ℚ) :
    ℕ → ℚ → List PocPoint
  | 0, _ => []
  | count + 1, rx =>
      (rx, spline_eval n pts y2 rx) :: poc_spline_sample_pts n pts y2 dx count (rx + dx)

/-- `poc_spline_get_vector` (src/pocspline.c lines 93-123): reject
point arrays with fewer than 2 points (`g_return_val_if_fail` returns
NULL, modelled as `none`); otherwise solve and sample `veclen` Y values
starting at `min_x` with step `dx = (max_x - min_x) / (veclen - 1)`.
(`veclen - 1` is `guint` arithmetic; for `veclen ≥ 1` it coincides with
the model's `ℕ` subtraction.) -/
def poc_spline_get_vector (points : List PocPoint) (min_x max_x : ℚ) (veclen : ℕ) :
    Option (List ℚ) :=
  let n_points := points.length
  if 2 ≤ n_points then
    let y2v := spline_solve n_points points
    let dx := (max_x - min_x) / ((veclen - 1 : ℕ) : ℚ)
    some (poc_spline_sample_ys n_points points y2v dx veclen min_x)
  else none

/-- `poc_spline_get_points` (src/pocspline.c lines 137-168): same guard
and sampling, collecting `(X, Y)` pairs. -/
def poc_spline_get_points (points : List PocPoint) (min_x max_x : ℚ) (veclen : ℕ) :
    Option (List PocPoint) :=
  let n_points := points.length
  if 2 ≤ n_points then
    let y2v := spline_solve n_points points
    let dx := (max_x - min_x) / ((veclen - 1 : ℕ) : ℚ)
    some (poc_spline_sample_pts n_points points y2v dx veclen min_x)
  else none

/-! ## Curve dataset resample cache (src/pocdataset.c, src/pocdatasetspline.c) -/

/-- The state of a `PocDatasetSpline` relevant to cache invalidation:
the control points (`PocDatasetPrivate.points`, nullable) and the
derived resample cache (`PocDatasetSpline.points`, `none` when
cleared) with its key `cache_width`. -/
structure PocDatasetSpline where
  points : Option (List PocPoint)
  cache : Option (List PocPoint)
  cache_width : ℕ
deriving Repr, DecidableEq

/-- `poc_dataset_spline_invalidate` (src/pocdatasetspline.c lines
289-300): chain to the base-class `invalidate` (a no-op,
`poc_dataset_invalidate_real` in src/pocdataset.c line 622) and clear
the cached resampled points. -/
def poc_dataset_spline_invalidate (d : PocDatasetSpline) : PocDatasetSpline :=
  { d with cache := none }

/-- `poc_dataset_set_points` (src/pocdataset.c lines 530-545) on a
curve dataset: replace the control points, then `poc_dataset_invalidate`,
which virtual-dispatches to `poc_dataset_spline_invalidate`. -/
def poc_dataset_set_points (d : PocDatasetSpline) (pts : Option (List PocPoint)) :
    PocDatasetSpline :=
  poc_dataset_spline_invalidate { d with points := pts }

/-- `poc_dataset_set_points_array` (src/pocdataset.c lines 575-592):
build a point array from the parallel coordinate arrays and store it as
the control points.  It performs no other action: in particular it does
not call `poc_dataset_invalidate`. -/
def poc_dataset_set_points_array (d : PocDatasetSpline) (x y : List ℚ) (npts : ℕ) :
    PocDatasetSpline :=
  { d with points := some ((List.range npts).map (fun i => (x.getD i 0, y.getD i 0))) }

/-- Modelled from the spec's words, for comparison with the code (claim
C1): "majorInterval equals the smallest value in {1, 10, 100, 1000,
10000} that is greater than or equal to the mode-space span, or 1 if
the span is below 10".  (For spans above 10000 no rung qualifies; the
definition returns the top rung there, which is irrelevant to the
comparison made below.) -/
def spec_smallest_rung_ge (s : ℚ) : ℚ :=
  if s < 10 then 1
  else if s ≤ 10 then 10
  else if s ≤ 100 then 100
  else if s ≤ 1000 then 1000
  else 10000

/-! ## Helper lemmas: field bookkeeping for the axis update blocks -/

theorem poc_axis_swap_bounds_le (a : PocAxis) :
    (poc_axis_swap_bounds a).lower_bound ≤ (poc_axis_swap_bounds a).upper_bound := by
  unfold poc_axis_swap_bounds
  split_ifs with h
  · exact le_of_lt h
  · exact le_of_not_lt h

@[simp] theorem poc_axis_swap_bounds_axis_mode (a : PocAxis) :
    (poc_axis_swap_bounds a).axis_mode = a.axis_mode := by
  unfold poc_axis_swap_bounds; split_ifs <;> rfl

@[simp] theorem poc_axis_swap_bounds_auto_interval (a : PocAxis) :
    (poc_axis_swap_bounds a).auto_interval = a.auto_interval := by
  unfold poc_axis_swap_bounds; split_ifs <;> rfl

@[simp] theorem poc_axis_swap_bounds_minor_divisions (a : PocAxis) :
    (poc_axis_swap_bounds a).minor_divisions = a.minor_divisions := by
  unfold poc_axis_swap_bounds; split_ifs <;> rfl

@[simp] theorem poc_axis_mode_bounds_lower_bound (l2 l10 : ℚ → ℚ) (a : PocAxis) :
    (poc_axis_mode_bounds l2 l10 a).lower_bound = a.lower_bound := by
  unfold poc_axis_mode_bounds; cases a.axis_mode <;> rfl

@[simp] theorem poc_axis_mode_bounds_upper_bound (l2 l10 : ℚ → ℚ) (a : PocAxis) :
    (poc_axis_mode_bounds l2 l10 a).upper_bound = a.upper_bound := by
  unfold poc_axis_mode_bounds; cases a.axis_mode <;> rfl

@[simp] theorem poc_axis_mode_bounds_axis_mode (l2 l10 : ℚ → ℚ) (a : PocAxis) :
    (poc_axis_mode_bounds l2 l10 a).axis_mode = a.axis_mode := by
  unfold poc_axis_mode_bounds; cases a.axis_mode <;> rfl

@[simp] theorem poc_axis_mode_bounds_auto_interval (l2 l10 : ℚ → ℚ) (a : PocAxis) :
    (poc_axis_mode_bounds l2 l10 a).auto_interval = a.auto_interval := by
  unfold poc_axis_mode_bounds; cases a.axis_mode <;> rfl

@[simp] theorem poc_axis_mode_bounds_minor_divisions (l2 l10 : ℚ → ℚ) (a : PocAxis) :
    (poc_axis_mode_bounds l2 l10 a).minor_divisions = a.minor_divisions := by
  unfold poc_axis_mode_bounds; cases a.axis_mode <;> rfl

theorem poc_axis_mode_bounds_linear (l2 l10 : ℚ → ℚ) (a : PocAxis)
    (h : a.axis_mode = .linear) :
    (poc_axis_mode_bounds l2 l10 a).lower_mode = a.lower_bound ∧
    (poc_axis_mode_bounds l2 l10 a).upper_mode = a.upper_bound := by
  unfold poc_axis_mode_bounds
  rw [h]
  exact ⟨rfl, rfl⟩

@[simp] theorem poc_axis_pick_interval_lower_bound (a : PocAxis) :
    (poc_axis_pick_interval a).lower_bound = a.lower_bound := by
  unfold poc_axis_pick_interval; split_ifs <;> rfl

@[simp] theorem poc_axis_pick_interval_upper_bound (a : PocAxis) :
    (poc_axis_pick_interval a).upper_bound = a.upper_bound := by
  unfold poc_axis_pick_interval; split_ifs <;> rfl

@[simp] theorem poc_axis_pick_interval_lower_mode (a : PocAxis) :
    (poc_axis_pick_interval a).lower_mode = a.lower_mode := by
  unfold poc_axis_pick_interval; split_ifs <;> rfl

@[simp] theorem poc_axis_pick_interval_upper_mode (a : PocAxis) :
    (poc_axis_pick_interval a).upper_mode = a.upper_mode := by
  unfold poc_axis_pick_interval; split_ifs <;> rfl

@[simp] theorem poc_axis_pick_interval_axis_mode (a : PocAxis) :
    (poc_axis_pick_interval a).axis_mode = a.axis_mode := by
  unfold poc_axis_pick_interval; split_ifs <;> rfl

@[simp] theorem poc_axis_pick_interval_auto_interval (a : PocAxis) :
    (poc_axis_pick_interval a).auto_interval = a.auto_interval := by
  unfold poc_axis_pick_interval; split_ifs <;> rfl

@[simp] theorem poc_axis_pick_interval_minor_divisions (a : PocAxis) :
    (poc_axis_pick_interval a).minor_divisions = a.minor_divisions := by
  unfold poc_axis_pick_interval; split_ifs <;> rfl

theorem poc_axis_pick_interval_major_of_auto (a : PocAxis) (h : a.auto_interval = true) :
    (poc_axis_pick_interval a).major_interval =
      (if 10000 ≤ a.upper_mode - a.lower_mode then 10000
       else if 1000 ≤ a.upper_mode - a.lower_mode then 1000
       else if 100 ≤ a.upper_mode - a.lower_mode then 100
       else if 10 ≤ a.upper_mode - a.lower_mode then 10
       else 1) := by
  unfold poc_axis_pick_interval
  rw [if_pos h]

@[simp] theorem poc_axis_minor_lower_bound (a : PocAxis) :
    (poc_axis_minor a).lower_bound = a.lower_bound := by
  unfold poc_axis_minor; split_ifs <;> rfl

@[simp] theorem poc_axis_minor_upper_bound (a : PocAxis) :
    (poc_axis_minor a).upper_bound = a.upper_bound := by
  unfold poc_axis_minor; split_ifs <;> rfl

@[simp] theorem poc_axis_minor_lower_mode (a : PocAxis) :
    (poc_axis_minor a).lower_mode = a.lower_mode := by
  unfold poc_axis_minor; split_ifs <;> rfl

@[simp] theorem poc_axis_minor_upper_mode (a : PocAxis) :
    (poc_axis_minor a).upper_mode = a.upper_mode := by
  unfold poc_axis_minor; split_ifs <;> rfl

@[simp] theorem poc_axis_minor_axis_mode (a : PocAxis) :
    (poc_axis_minor a).axis_mode = a.axis_mode := by
  unfold poc_axis_minor; split_ifs <;> rfl

@[simp] theorem poc_axis_minor_major_interval (a : PocAxis) :
    (poc_axis_minor a).major_interval = a.major_interval := by
  unfold poc_axis_minor; split_ifs <;> rfl

@[simp] theorem poc_axis_minor_auto_interval (a : PocAxis) :
    (poc_axis_minor a).auto_interval = a.auto_interval := by
  unfold poc_axis_minor; split_ifs <;> rfl

@[simp] theorem poc_axis_minor_minor_divisions (a : PocAxis) :
    (poc_axis_minor a).minor_divisions = a.minor_divisions := by
  unfold poc_axis_minor; split_ifs <;> rfl

theorem poc_axis_update_bounds_le (l2 l10 : ℚ → ℚ) (a : PocAxis) :
    (poc_axis_update_bounds l2 l10 a).lower_bound ≤
      (poc_axis_update_bounds l2 l10 a).upper_bound := by
  unfold poc_axis_update_bounds
  simp only [poc_axis_minor_lower_bound, poc_axis_minor_upper_bound,
    poc_axis_pick_interval_lower_bound, poc_axis_pick_interval_upper_bound,
    poc_axis_mode_bounds_lower_bound, poc_axis_mode_bounds_upper_bound]
  exact poc_axis_swap_bounds_le a

theorem poc_axis_update_bounds_linear (l2 l10 : ℚ → ℚ) (a : PocAxis)
    (h : a.axis_mode = .linear) :
    (poc_axis_update_bounds l2 l10 a).axis_mode = .linear ∧
    (poc_axis_update_bounds l2 l10 a).lower_mode =
      (poc_axis_update_bounds l2 l10 a).lower_bound ∧
    (poc_axis_update_bounds l2 l10 a).upper_mode =
      (poc_axis_update_bounds l2 l10 a).upper_bound := by
  have hm : (poc_axis_swap_bounds a).axis_mode = .linear := by
    rw [poc_axis_swap_bounds_axis_mode]; exact h
  obtain ⟨h1, h2⟩ := poc_axis_mode_bounds_linear l2 l10 _ hm
  unfold poc_axis_update_bounds
  simp only [poc_axis_minor_axis_mode, poc_axis_minor_lower_mode, poc_axis_minor_upper_mode,
    poc_axis_minor_lower_bound, poc_axis_minor_upper_bound,
    poc_axis_pick_interval_axis_mode, poc_axis_pick_interval_lower_mode,
    poc_axis_pick_interval_upper_mode, poc_axis_pick_interval_lower_bound,
    poc_axis_pick_interval_upper_bound, poc_axis_mode_bounds_axis_mode,
    poc_axis_mode_bounds_lower_bound, poc_axis_mode_bounds_upper_bound]
  exact ⟨hm, h1, h2⟩

theorem poc_axis_update_bounds_auto_spec (l2 l10 : ℚ → ℚ) (a : PocAxis)
    (hauto : (poc_axis_update_bounds l2 l10 a).auto_interval = true) :
    (poc_axis_update_bounds l2 l10 a).major_interval ∈
      ([1, 10, 100, 1000, 10000] : List ℚ) ∧
    ((poc_axis_update_bounds l2 l10 a).upper_mode -
        (poc_axis_update_bounds l2 l10 a).lower_mode < 10 →
      (poc_axis_update_bounds l2 l10 a).major_interval = 1) ∧
    (10 ≤ (poc_axis_update_bounds l2 l10 a).upper_mode -
        (poc_axis_update_bounds l2 l10 a).lower_mode →
      (poc_axis_update_bounds l2 l10 a).major_interval ≤
        (poc_axis_update_bounds l2 l10 a).upper_mode -
          (poc_axis_update_bounds l2 l10 a).lower_mode ∧
      ∀ r ∈ ([1, 10, 100, 1000, 10000] : List ℚ),
        r ≤ (poc_axis_update_bounds l2 l10 a).upper_mode -
              (poc_axis_update_bounds l2 l10 a).lower_mode →
          r ≤ (poc_axis_update_bounds l2 l10 a).major_interval) := by
  have hc : (poc_axis_mode_bounds l2 l10 (poc_axis_swap_bounds a)).auto_interval = true := by
    unfold poc_axis_update_bounds at hauto
    rwa [poc_axis_minor_auto_interval, poc_axis_pick_interval_auto_interval] at hauto
  unfold poc_axis_update_bounds
  rw [poc_axis_minor_major_interval, poc_axis_minor_upper_mode, poc_axis_minor_lower_mode,
    poc_axis_pick_interval_upper_mode, poc_axis_pick_interval_lower_mode,
    poc_axis_pick_interval_major_of_auto _ hc]
  set s := (poc_axis_mode_bounds l2 l10 (poc_axis_swap_bounds a)).upper_mode -
    (poc_axis_mode_bounds l2 l10 (poc_axis_swap_bounds a)).lower_mode with hs
  split_ifs with h1 h2 h3 h4
  · exact ⟨by decide, fun hlt => by linarith, fun _ =>
      ⟨by linarith, fun r hr _ => by fin_cases hr <;> norm_num⟩⟩
  · exact ⟨by decide, fun hlt => by linarith, fun _ =>
      ⟨by linarith, fun r hr hrs => by fin_cases hr <;> linarith⟩⟩
  · exact ⟨by decide, fun hlt => by linarith, fun _ =>
      ⟨by linarith, fun r hr hrs => by fin_cases hr <;> linarith⟩⟩
  · exact ⟨by decide, fun hlt => by linarith, fun _ =>
      ⟨by linarith, fun r hr hrs => by fin_cases hr <;> linarith⟩⟩
  · exact ⟨by decide, fun _ => rfl, fun hge => by push_neg at h4; linarith⟩

theorem poc_axis_project_of_linear (l2 l10 : ℚ → ℚ) (a : PocAxis) (value : ℚ) (norm : ℤ)
    (h : a.axis_mode = .linear) :
    poc_axis_project l2 l10 a value norm = poc_axis_linear_project a value norm := by
  unfold poc_axis_project
  rw [h]

theorem poc_axis_linear_project_nonneg (a : PocAxis) (value : ℚ) (norm : ℤ)
    (hne : a.upper_mode - a.lower_mode ≠ 0) (hn : 0 ≤ norm) :
    poc_axis_linear_project a value norm =
      some ((value - a.lower_mode) / (a.upper_mode - a.lower_mode) * ((norm : ℚ) - 1)) := by
  simp only [poc_axis_linear_project]
  rw [if_neg hne, if_neg (not_lt.mpr hn), if_neg (not_lt.mpr hn)]

theorem poc_axis_linear_project_mirror (a : PocAxis) (value : ℚ) (norm : ℤ) (hn : 0 < norm) :
    poc_axis_linear_project a value (-norm) =
      (poc_axis_linear_project a value norm).map (fun p => ((norm : ℚ) - 1) - p) := by
  simp only [poc_axis_linear_project]
  by_cases hd : a.upper_mode - a.lower_mode = 0
  · rw [if_pos hd, if_pos hd]
    rfl
  · rw [if_neg hd, if_neg hd]
    have h1 : -norm < 0 := by omega
    have h2 : ¬norm < 0 := by omega
    rw [if_pos h1, if_pos h1, if_neg h2, if_neg h2, Option.map_some']
    congr 1
    push_cast
    ring

/-! ## Claim theorems -/

/-- Claim C7: after any bounds-updating axis operation the invariant
`lowerBound ≤ upperBound` holds (inverted inputs are swapped rather
than rejected), and configuring an axis with `lower = 5`, `upper = 1`
yields `lowerBound = 1` and `upperBound = 5`. -/
theorem claim_C7 :
    (∀ (l2 l10 : ℚ → ℚ) (a : PocAxis) (op : AxisOp),
      (applyAxisOp l2 l10 a op).lower_bound ≤ (applyAxisOp l2 l10 a op).upper_bound) ∧
    (∀ (l2 l10 : ℚ → ℚ) (a : PocAxis) (mode : PocAxisMode),
      (poc_axis_configure l2 l10 a mode 5 1).lower_bound = 1 ∧
      (poc_axis_configure l2 l10 a mode 5 1).upper_bound = 5) := by
  constructor
  · intro l2 l10 a op
    cases op <;> exact poc_axis_update_bounds_le l2 l10 _
  · intro l2 l10 a mode
    unfold poc_axis_configure poc_axis_update_bounds
    simp only [poc_axis_minor_lower_bound, poc_axis_minor_upper_bound,
      poc_axis_pick_interval_lower_bound, poc_axis_pick_interval_upper_bound,
      poc_axis_mode_bounds_lower_bound, poc_axis_mode_bounds_upper_bound]
    unfold poc_axis_swap_bounds
    norm_num

/-- Claim C10: equal bounds are accepted by `poc_axis_configure` (the
swap correction only fires on strict inversion), after which
`lowerMode = upperMode` makes the interpolation of
`poc_axis_linear_project` divide by zero, so for every value and every
norm the projection (and `poc_axis_project`, which delegates to it) is
not a finite pixel position (`none` in the model). -/
theorem claim_C10 :
    ∀ (l2 l10 : ℚ → ℚ) (a : PocAxis) (c value : ℚ) (norm : ℤ),
      (poc_axis_configure l2 l10 a .linear c c).lower_bound = c ∧
      (poc_axis_configure l2 l10 a .linear c c).upper_bound = c ∧
      poc_axis_linear_project (poc_axis_configure l2 l10 a .linear c c) value norm = none ∧
      poc_axis_project l2 l10 (poc_axis_configure l2 l10 a .linear c c) value norm = none := by
  intro l2 l10 a c value norm
  have hcfg : poc_axis_configure l2 l10 a .linear c c =
      poc_axis_update_bounds l2 l10
        { a with lower_bound := c, upper_bound := c, axis_mode := PocAxisMode.linear } := rfl
  obtain ⟨hax, hlm, hum⟩ := poc_axis_update_bounds_linear l2 l10
    { a with lower_bound := c, upper_bound := c, axis_mode := .linear } rfl
  have hswap : poc_axis_swap_bounds
      { a with lower_bound := c, upper_bound := c, axis_mode := PocAxisMode.linear } =
      { a with lower_bound := c, upper_bound := c, axis_mode := PocAxisMode.linear } := by
    unfold poc_axis_swap_bounds
    exact if_neg (lt_irrefl c)
  have hlb : (poc_axis_update_bounds l2 l10
      { a with lower_bound := c, upper_bound := c, axis_mode := PocAxisMode.linear }).lower_bound
      = c := by
    unfold poc_axis_update_bounds
    rw [poc_axis_minor_lower_bound, poc_axis_pick_interval_lower_bound,
      poc_axis_mode_bounds_lower_bound, hswap]
  have hub : (poc_axis_update_bounds l2 l10
      { a with lower_bound := c, upper_bound := c, axis_mode := PocAxisMode.linear }).upper_bound
      = c := by
    unfold poc_axis_update_bounds
    rw [poc_axis_minor_upper_bound, poc_axis_pick_interval_upper_bound,
      poc_axis_mode_bounds_upper_bound, hswap]
  have hdeg : (poc_axis_update_bounds l2 l10
      { a with lower_bound := c, upper_bound := c, axis_mode := PocAxisMode.linear }).upper_mode
      - (poc_axis_update_bounds l2 l10
      { a with lower_bound := c, upper_bound := c, axis_mode := PocAxisMode.linear }).lower_mode
      = 0 := by
    rw [hum, hlm, hub, hlb, sub_self]
  have hlin : poc_axis_linear_project (poc_axis_update_bounds l2 l10
      { a with lower_bound := c, upper_bound := c, axis_mode := PocAxisMode.linear }) value norm
      = none := by
    unfold poc_axis_linear_project
    rw [if_pos hdeg]
  rw [hcfg]
  refine ⟨hlb, hub, hlin, ?_⟩
  unfold poc_axis_project
  rw [hax]
  exact hlin

/-- Claim C2: for an axis in Linear mode (no adjustment attached, so
after `poc_axis_update_bounds` the mode bounds agree with the raw
bounds) with `lowerMode < upperMode` and a positive `norm`:
`project(lowerBound, norm) = 0`, `project(upperBound, norm) = norm - 1`,
and `project` is monotone non-decreasing in the value on
`[lowerBound, upperBound]`.  Exact in the rational model, hence within
floating tolerance for the C doubles. -/
theorem claim_C2 (l2 l10 : ℚ → ℚ) (a : PocAxis) (norm : ℤ)
    (hmode : a.axis_mode = .linear) (hn : 0 < norm)
    (hlt : (poc_axis_update_bounds l2 l10 a).lower_mode <
      (poc_axis_update_bounds l2 l10 a).upper_mode) :
    poc_axis_project l2 l10 (poc_axis_update_bounds l2 l10 a)
      (poc_axis_update_bounds l2 l10 a).lower_bound norm = some 0 ∧
    poc_axis_project l2 l10 (poc_axis_update_bounds l2 l10 a)
      (poc_axis_update_bounds l2 l10 a).upper_bound norm = some ((norm : ℚ) - 1) ∧
    ∀ v w : ℚ, (poc_axis_update_bounds l2 l10 a).lower_bound ≤ v → v ≤ w →
      w ≤ (poc_axis_update_bounds l2 l10 a).upper_bound →
      ∃ pv pw : ℚ,
        poc_axis_project l2 l10 (poc_axis_update_bounds l2 l10 a) v norm = some pv ∧
        poc_axis_project l2 l10 (poc_axis_update_bounds l2 l10 a) w norm = some pw ∧
        pv ≤ pw := by
  obtain ⟨hax, hlm, hum⟩ := poc_axis_update_bounds_linear l2 l10 a hmode
  set r := poc_axis_update_bounds l2 l10 a with hr
  have hne : r.upper_mode - r.lower_mode ≠ 0 := sub_ne_zero.mpr (ne_of_gt hlt)
  have hpos : (0 : ℚ) < r.upper_mode - r.lower_mode := sub_pos.mpr hlt
  have hnn : (0 : ℤ) ≤ norm := le_of_lt hn
  have hscale : (0 : ℚ) ≤ (norm : ℚ) - 1 := by
    have h1 : (1 : ℤ) ≤ norm := hn
    have h2 : (1 : ℚ) ≤ (norm : ℚ) := by exact_mod_cast h1
    linarith
  refine ⟨?_, ?_, ?_⟩
  · rw [poc_axis_project_of_linear _ _ _ _ _ hax,
      poc_axis_linear_project_nonneg _ _ _ hne hnn, ← hlm, sub_self, zero_div, zero_mul]
  · rw [poc_axis_project_of_linear _ _ _ _ _ hax,
      poc_axis_linear_project_nonneg _ _ _ hne hnn, ← hum, div_self hne, one_mul]
  · intro v w _ hvw _
    refine ⟨(v - r.lower_mode) / (r.upper_mode - r.lower_mode) * ((norm : ℚ) - 1),
      (w - r.lower_mode) / (r.upper_mode - r.lower_mode) * ((norm : ℚ) - 1), ?_, ?_, ?_⟩
    · rw [poc_axis_project_of_linear _ _ _ _ _ hax,
        poc_axis_linear_project_nonneg _ _ _ hne hnn]
    · rw [poc_axis_project_of_linear _ _ _ _ _ hax,
        poc_axis_linear_project_nonneg _ _ _ hne hnn]
    · have hsub : v - r.lower_mode ≤ w - r.lower_mode := by linarith
      exact mul_le_mul_of_nonneg_right ((div_le_div_iff_of_pos_right hpos).mpr hsub) hscale

/-- A concrete linear axis exercising claims C2 and C3. -/
def axisC2 : PocAxis :=
  { axis_mode := .linear, lower_bound := 0, upper_bound := 10, lower_mode := 0,
    upper_mode := 0, major_interval := 1, auto_interval := false, minor_divisions := 0,
    minor_interval := 0 }

/-- Witness for claim C2 at a concrete axis (bounds 0..10) and norm 5. -/
theorem claim_C2_witness :
    axisC2.axis_mode = PocAxisMode.linear ∧ (0 : ℤ) < 5 ∧
    (poc_axis_update_bounds (fun q => q) (fun q => q) axisC2).lower_mode <
      (poc_axis_update_bounds (fun q => q) (fun q => q) axisC2).upper_mode ∧
    (poc_axis_project (fun q => q) (fun q => q)
      (poc_axis_update_bounds (fun q => q) (fun q => q) axisC2)
      (poc_axis_update_bounds (fun q => q) (fun q => q) axisC2).lower_bound 5 = some 0 ∧
    poc_axis_project (fun q => q) (fun q => q)
      (poc_axis_update_bounds (fun q => q) (fun q => q) axisC2)
      (poc_axis_update_bounds (fun q => q) (fun q => q) axisC2).upper_bound 5 =
        some (((5 : ℤ) : ℚ) - 1) ∧
    ∀ v w : ℚ, (poc_axis_update_bounds (fun q => q) (fun q => q) axisC2).lower_bound ≤ v →
      v ≤ w →
      w ≤ (poc_axis_update_bounds (fun q => q) (fun q => q) axisC2).upper_bound →
      ∃ pv pw : ℚ,
        poc_axis_project (fun q => q) (fun q => q)
          (poc_axis_update_bounds (fun q => q) (fun q => q) axisC2) v 5 = some pv ∧
        poc_axis_project (fun q => q) (fun q => q)
          (poc_axis_update_bounds (fun q => q) (fun q => q) axisC2) w 5 = some pw ∧
        pv ≤ pw) :=
  ⟨rfl, by decide, by decide,
    claim_C2 (fun q => q) (fun q => q) axisC2 5 rfl (by decide) (by decide)⟩

/-- Claim C3: the mirror identity.  For every axis state, value and
positive norm, `project(value, -norm)` is the mirror
`(norm - 1) - project(value, norm)` (expressed with `Option.map`, so a
non-finite projection on one side is non-finite on the other). -/
theorem claim_C3 (l2 l10 : ℚ → ℚ) (a : PocAxis) (value : ℚ) (norm : ℤ) (hn : 0 < norm) :
    poc_axis_project l2 l10 a value (-norm) =
      (poc_axis_project l2 l10 a value norm).map (fun p => ((norm : ℚ) - 1) - p) := by
  cases haxm : a.axis_mode
  · unfold poc_axis_project
    rw [haxm]
    exact poc_axis_linear_project_mirror a value norm hn
  · unfold poc_axis_project
    rw [haxm]
    exact poc_axis_linear_project_mirror a (l2 value) norm hn
  · unfold poc_axis_project
    rw [haxm]
    exact poc_axis_linear_project_mirror a (l10 value) norm hn

/-- Witness for claim C3 at the concrete axis, value 3, norm 7. -/
theorem claim_C3_witness :
    (0 : ℤ) < 7 ∧
    poc_axis_project (fun q => q) (fun q => q) axisC2 3 (-7) =
      (poc_axis_project (fun q => q) (fun q => q) axisC2 3 7).map
        (fun p => (((7 : ℤ) : ℚ) - 1) - p) :=
  ⟨by decide, claim_C3 (fun q => q) (fun q => q) axisC2 3 7 (by decide)⟩

/-- A concrete auto-interval axis with span 500, refuting claim C1 as
stated. -/
def axisC1 : PocAxis :=
  { axis_mode := .linear, lower_bound := 0, upper_bound := 500, lower_mode := 0,
    upper_mode := 0, major_interval := 0, auto_interval := true, minor_divisions := 0,
    minor_interval := 0 }

/-- Claim C1, counterexample: for the auto-interval axis with bounds
0..500 (mode-space span 500), `poc_axis_update_bounds` — the routine
every listed operation ends with — sets `majorInterval = 100`, whereas
the claim's rule (the smallest rung of {1, 10, 100, 1000, 10000} that
is ≥ the span) demands 1000. -/
theorem claim_C1_counterexample :
    (poc_axis_update_bounds (fun q => q) (fun q => q) axisC1).auto_interval = true ∧
    (poc_axis_update_bounds (fun q => q) (fun q => q) axisC1).upper_mode -
      (poc_axis_update_bounds (fun q => q) (fun q => q) axisC1).lower_mode = 500 ∧
    (poc_axis_update_bounds (fun q => q) (fun q => q) axisC1).major_interval = 100 ∧
    spec_smallest_rung_ge 500 = 1000 ∧
    (poc_axis_update_bounds (fun q => q) (fun q => q) axisC1).major_interval ≠
      spec_smallest_rung_ge 500 := by
  norm_num [axisC1, poc_axis_update_bounds, poc_axis_swap_bounds, poc_axis_mode_bounds,
    poc_axis_pick_interval, poc_axis_minor, spec_smallest_rung_ge]

/-- Claim C1 (amended): for every axis with autoInterval enabled, after
any operation that recomputes derived state (configure, setLowerBound,
setUpperBound, setMode, setMajorInterval, setAutoInterval,
setMinorDivisions), the resulting majorInterval is drawn from the
ladder {1, 10, 100, 1000, 10000} and equals the LARGEST ladder value
that is ≤ the mode-space span (upperMode - lowerMode), or 1 if the span
is below 10. -/
theorem claim_C1 (l2 l10 : ℚ → ℚ) (a : PocAxis) (op : AxisOp)
    (hauto : (applyAxisOp l2 l10 a op).auto_interval = true) :
    (applyAxisOp l2 l10 a op).major_interval ∈ ([1, 10, 100, 1000, 10000] : List ℚ) ∧
    ((applyAxisOp l2 l10 a op).upper_mode - (applyAxisOp l2 l10 a op).lower_mode < 10 →
      (applyAxisOp l2 l10 a op).major_interval = 1) ∧
    (10 ≤ (applyAxisOp l2 l10 a op).upper_mode - (applyAxisOp l2 l10 a op).lower_mode →
      (applyAxisOp l2 l10 a op).major_interval ≤
        (applyAxisOp l2 l10 a op).upper_mode - (applyAxisOp l2 l10 a op).lower_mode ∧
      ∀ r ∈ ([1, 10, 100, 1000, 10000] : List ℚ),
        r ≤ (applyAxisOp l2 l10 a op).upper_mode - (applyAxisOp l2 l10 a op).lower_mode →
          r ≤ (applyAxisOp l2 l10 a op).major_interval) := by
  cases op <;> exact poc_axis_update_bounds_auto_spec l2 l10 _ hauto

/-- Witness for the amended claim C1: configuring `axisC1` to linear
bounds 0..500 keeps autoInterval set and the characterization applies. -/
theorem claim_C1_witness :
    (applyAxisOp (fun q => q) (fun q => q) axisC1
        (.configure .linear 0 500)).auto_interval = true ∧
    ((applyAxisOp (fun q => q) (fun q => q) axisC1
        (.configure .linear 0 500)).major_interval ∈ ([1, 10, 100, 1000, 10000] : List ℚ) ∧
    ((applyAxisOp (fun q => q) (fun q => q) axisC1 (.configure .linear 0 500)).upper_mode -
        (applyAxisOp (fun q => q) (fun q => q) axisC1 (.configure .linear 0 500)).lower_mode
          < 10 →
      (applyAxisOp (fun q => q) (fun q => q) axisC1
        (.configure .linear 0 500)).major_interval = 1) ∧
    (10 ≤ (applyAxisOp (fun q => q) (fun q => q) axisC1 (.configure .linear 0 500)).upper_mode -
        (applyAxisOp (fun q => q) (fun q => q) axisC1 (.configure .linear 0 500)).lower_mode →
      (applyAxisOp (fun q => q) (fun q => q) axisC1
          (.configure .linear 0 500)).major_interval ≤
        (applyAxisOp (fun q => q) (fun q => q) axisC1 (.configure .linear 0 500)).upper_mode -
          (applyAxisOp (fun q => q) (fun q => q) axisC1 (.configure .linear 0 500)).lower_mode ∧
      ∀ r ∈ ([1, 10, 100, 1000, 10000] : List ℚ),
        r ≤ (applyAxisOp (fun q => q) (fun q => q) axisC1
              (.configure .linear 0 500)).upper_mode -
            (applyAxisOp (fun q => q) (fun q => q) axisC1
              (.configure .linear 0 500)).lower_mode →
          r ≤ (applyAxisOp (fun q => q) (fun q => q) axisC1
              (.configure .linear 0 500)).major_interval)) :=
  ⟨by decide,
    claim_C1 (fun q => q) (fun q => q) axisC1 (.configure .linear 0 500) (by decide)⟩

/-- A curve dataset whose resample cache currently holds data, used to
exhibit the stale cache left behind by `poc_dataset_set_points_array`. -/
def datasetC6 : PocDatasetSpline :=
  { points := some [(0, 0), (1, 1)], cache := some [(5, 5)], cache_width := 100 }

/-- Claim C6: `poc_dataset_set_points` does clear the resample cache on
every curve dataset, but `poc_dataset_set_points_array` replaces the
control points without calling `poc_dataset_invalidate`, so a populated
cache survives the replacement (the next draw at the same width reuses
it, src/pocdatasetspline.c lines 326-334). -/
theorem claim_C6 :
    (∀ (d : PocDatasetSpline) (pts : Option (List PocPoint)),
      (poc_dataset_set_points d pts).cache = none) ∧
    (poc_dataset_set_points_array datasetC6 [2, 3] [4, 5] 2).points =
      some [(2, 4), (3, 5)] ∧
    (poc_dataset_set_points_array datasetC6 [2, 3] [4, 5] 2).cache = some [(5, 5)] ∧
    (poc_dataset_set_points_array datasetC6 [2, 3] [4, 5] 2).cache ≠ none := by
  refine ⟨fun d pts => rfl, ?_, rfl, ?_⟩
  · decide
  · decide

/-- Claim C9: with fewer than 2 control points both
`poc_spline_get_vector` and `poc_spline_get_points` reject the input
and return no samples (NULL, modelled as `none`); with 2 or more
points the precondition check passes and both return a result. -/
theorem claim_C9 :
    (∀ (pts : List PocPoint) (min_x max_x : ℚ) (veclen : ℕ), pts.length < 2 →
      poc_spline_get_vector pts min_x max_x veclen = none ∧
      poc_spline_get_points pts min_x max_x veclen = none) ∧
    (∀ (pts : List PocPoint) (min_x max_x : ℚ) (veclen : ℕ), 2 ≤ pts.length →
      (poc_spline_get_vector pts min_x max_x veclen).isSome = true ∧
      (poc_spline_get_points pts min_x max_x veclen).isSome = true) := by
  constructor
  · intro pts min_x max_x veclen hlt
    have h2 : ¬2 ≤ pts.length := not_le.mpr hlt
    constructor
    · unfold poc_spline_get_vector
      rw [if_neg h2]
    · unfold poc_spline_get_points
      rw [if_neg h2]
  · intro pts min_x max_x veclen hge
    constructor
    · unfold poc_spline_get_vector
      rw [if_pos hge]
      rfl
    · unfold poc_spline_get_points
      rw [if_pos hge]
      rfl

/-- Witness for claim C9: the empty array is rejected, a 2-point array
passes the check. -/
theorem claim_C9_witness :
    (([] : List PocPoint).length < 2 ∧
      poc_spline_get_vector [] 0 1 4 = none ∧
      poc_spline_get_points [] 0 1 4 = none) ∧
    (2 ≤ ([(0, 0), (1, 1)] : List PocPoint).length ∧
      (poc_spline_get_vector [(0, 0), (1, 1)] 0 1 4).isSome = true ∧
      (poc_spline_get_points [(0, 0), (1, 1)] 0 1 4).isSome = true) :=
  ⟨⟨by decide, claim_C9.1 [] 0 1 4 (by decide)⟩,
   ⟨by decide, claim_C9.2 [(0, 0), (1, 1)] 0 1 4 (by decide)⟩⟩

/-! ## Spline lemmas -/

theorem spline_search_invariant (pts : List PocPoint) (n : ℕ) (val : ℚ) :
    ∀ d lo hi, hi - lo = d → lo < hi → hi ≤ n - 1 →
      ptx pts lo ≤ val → (val < ptx pts hi ∨ hi = n - 1) →
      (spline_search pts val lo hi).2 = (spline_search pts val lo hi).1 + 1 ∧
      (spline_search pts val lo hi).2 ≤ n - 1 ∧
      ptx pts (spline_search pts val lo hi).1 ≤ val ∧
      (val < ptx pts (spline_search pts val lo hi).2 ∨
        (spline_search pts val lo hi).2 = n - 1) := by
  intro d
  induction d using Nat.strong_induction_on with
  | _ d ih =>
    intro lo hi hd hlohi hhin hlo hhi
    rw [spline_search]
    split_ifs with h1 h2
    · exact ih ((hi + lo) / 2 - lo) (by omega) lo ((hi + lo) / 2) rfl (by omega)
        (by omega) hlo (Or.inl h2)
    · exact ih (hi - (hi + lo) / 2) (by omega) ((hi + lo) / 2) hi rfl (by omega)
        hhin (not_lt.mp h2) hhi
    · exact ⟨by omega, hhin, hlo, hhi⟩

theorem spline_eval_at_knot (pts : List PocPoint) (n j : ℕ) (y2 : List ℚ)
    (hn : n = pts.length) (h2 : 2 ≤ n) (hj : j < n)
    (hmono : ∀ q, q < n → ∀ i, i < q → ptx pts i < ptx pts q) :
    spline_eval n pts y2 (ptx pts j) = pty pts j := by
  have hstart : ptx pts 0 ≤ ptx pts j := by
    rcases Nat.eq_zero_or_pos j with hj0 | hj0
    · rw [hj0]
    · exact le_of_lt (hmono j hj 0 hj0)
  obtain ⟨hadj, hhile, hloval, hhival⟩ :=
    spline_search_invariant pts n (ptx pts j) (n - 1) 0 (n - 1) rfl (by omega) le_rfl
      hstart (Or.inr rfl)
  simp only [spline_eval]
  set s := spline_search pts (ptx pts j) 0 (n - 1) with hs
  have hlo_lt_n : s.1 < n := by omega
  have hhi_lt_n : s.2 < n := by omega
  have hx : ptx pts s.1 < ptx pts s.2 := hmono s.2 hhi_lt_n s.1 (by omega)
  have hne : ptx pts s.2 - ptx pts s.1 ≠ 0 := sub_ne_zero.mpr (ne_of_gt hx)
  by_cases hcase : ptx pts j < ptx pts s.2
  · have hjlo : j = s.1 := by
      by_contra hne2
      rcases Nat.lt_or_ge j s.1 with hlt | hge
      · exact absurd hloval (not_le.mpr (hmono s.1 hlo_lt_n j hlt))
      · have hge2 : s.2 ≤ j := by omega
        have : ptx pts s.2 ≤ ptx pts j := by
          rcases Nat.eq_or_lt_of_le hge2 with heq | hlt2
          · rw [heq]
          · exact le_of_lt (hmono j hj s.2 hlt2)
        exact absurd hcase (not_lt.mpr this)
    rw [hjlo]
    rw [div_self hne, sub_self, zero_div]
    ring
  · have hhin : s.2 = n - 1 := hhival.resolve_left hcase
    have hjhi : j = s.2 := by
      have hle : ptx pts s.2 ≤ ptx pts j := not_lt.mp hcase
      by_contra hne2
      have hjlt : j < s.2 := by
        rcases Nat.lt_or_ge j s.2 with hlt | hge
        · exact hlt
        · omega
      exact absurd hle (not_le.mpr (hmono s.2 hhi_lt_n j hjlt))
    rw [hjhi]
    rw [sub_self, zero_div, div_self hne]
    ring

/-- Claim C4: for every array of at least 2 control points with
strictly increasing X and the second derivatives produced by
`spline_solve`, evaluating the spline at the X of any control point
returns that point's Y — exactly, in the rational model; in particular
for the control points (0,0), (1,1), (2,0), (3,1), evaluation at x = 1
gives 1 and at x = 2 gives 0. -/
theorem claim_C4 (pts : List PocPoint) (n : ℕ)
    (hn : n = pts.length) (h2 : 2 ≤ n)
    (hmono : ∀ q, q < n → ∀ i, i < q → ptx pts i < ptx pts q) :
    (∀ j, j < n → spline_eval n pts (spline_solve n pts) (ptx pts j) = pty pts j) ∧
    spline_eval 4 [(0, 0), (1, 1), (2, 0), (3, 1)]
      (spline_solve 4 [(0, 0), (1, 1), (2, 0), (3, 1)]) 1 = 1 ∧
    spline_eval 4 [(0, 0), (1, 1), (2, 0), (3, 1)]
      (spline_solve 4 [(0, 0), (1, 1), (2, 0), (3, 1)]) 2 = 0 := by
  refine ⟨fun j hj => spline_eval_at_knot pts n j (spline_solve n pts) hn h2 hj hmono,
    ?_, ?_⟩
  · exact spline_eval_at_knot [(0, 0), (1, 1), (2, 0), (3, 1)] 4 1
      (spline_solve 4 [(0, 0), (1, 1), (2, 0), (3, 1)]) rfl (by norm_num) (by norm_num)
      (by decide)
  · exact spline_eval_at_knot [(0, 0), (1, 1), (2, 0), (3, 1)] 4 2
      (spline_solve 4 [(0, 0), (1, 1), (2, 0), (3, 1)]) rfl (by norm_num) (by norm_num)
      (by decide)

/-- Witness for claim C4 at the concrete control points
(0,0), (1,1), (2,0), (3,1). -/
theorem claim_C4_witness :
    (4 = ([(0, 0), (1, 1), (2, 0), (3, 1)] : List PocPoint).length ∧ 2 ≤ 4 ∧
      (∀ q, q < 4 → ∀ i, i < q →
        ptx [(0, 0), (1, 1), (2, 0), (3, 1)] i < ptx [(0, 0), (1, 1), (2, 0), (3, 1)] q)) ∧
    ((∀ j, j < 4 →
        spline_eval 4 [(0, 0), (1, 1), (2, 0), (3, 1)]
          (spline_solve 4 [(0, 0), (1, 1), (2, 0), (3, 1)])
          (ptx [(0, 0), (1, 1), (2, 0), (3, 1)] j) =
        pty [(0, 0), (1, 1), (2, 0), (3, 1)] j) ∧
      spline_eval 4 [(0, 0), (1, 1), (2, 0), (3, 1)]
        (spline_solve 4 [(0, 0), (1, 1), (2, 0), (3, 1)]) 1 = 1 ∧
      spline_eval 4 [(0, 0), (1, 1), (2, 0), (3, 1)]
        (spline_solve 4 [(0, 0), (1, 1), (2, 0), (3, 1)]) 2 = 0) :=
  ⟨⟨rfl, by norm_num, by decide⟩,
    claim_C4 [(0, 0), (1, 1), (2, 0), (3, 1)] 4 rfl (by norm_num) (by decide)⟩

theorem poc_spline_sample_pts_length (n : ℕ) (pts : List PocPoint) (y2 : List ℚ) (dx : ℚ) :
    ∀ (count : ℕ) (rx : ℚ), (poc_spline_sample_pts n pts y2 dx count rx).length = count := by
  intro count
  induction count with
  | zero => intro rx; rfl
  | succ k ih => intro rx; simp only [poc_spline_sample_pts, List.length_cons, ih]

theorem poc_spline_sample_pts_fst (n : ℕ) (pts : List PocPoint) (y2 : List ℚ) (dx : ℚ) :
    ∀ (count : ℕ) (rx : ℚ),
      (poc_spline_sample_pts n pts y2 dx count rx).map Prod.fst =
        (List.range count).map (fun i : ℕ => rx + (i : ℚ) * dx) := by
  intro count
  induction count with
  | zero => intro rx; rfl
  | succ k ih =>
      intro rx
      rw [List.range_succ_eq_map]
      simp only [poc_spline_sample_pts, List.map_cons, List.map_map]
      rw [ih (rx + dx)]
      congr 1
      · norm_num
      · apply List.map_congr_left
        intro i _
        simp only [Function.comp_apply]
        push_cast
        ring

theorem poc_spline_sample_ys_eq (n : ℕ) (pts : List PocPoint) (y2 : List ℚ) (dx : ℚ) :
    ∀ (count : ℕ) (rx : ℚ),
      poc_spline_sample_ys n pts y2 dx count rx =
        (poc_spline_sample_pts n pts y2 dx count rx).map Prod.snd := by
  intro count
  induction count with
  | zero => intro rx; rfl
  | succ k ih =>
      intro rx
      simp only [poc_spline_sample_ys, poc_spline_sample_pts, List.map_cons]
      rw [ih (rx + dx)]

theorem range_map_getD (f : ℕ → ℚ) (n i : ℕ) (hi : i < n) :
    ((List.range n).map f).getD i 0 = f i := by
  rw [List.getD_eq_getElem?_getD, List.getElem?_map, List.getElem?_range hi]
  rfl

theorem poc_spline_get_points_spec (pts : List PocPoint) (min_x max_x : ℚ) (veclen : ℕ)
    (hpts : 2 ≤ pts.length) (hvec : 2 ≤ veclen) :
    ∃ arr : List PocPoint,
      poc_spline_get_points pts min_x max_x veclen = some arr ∧
      arr.length = veclen ∧
      arr.map Prod.fst = (List.range veclen).map
        (fun i : ℕ => min_x + (i : ℚ) * ((max_x - min_x) / ((veclen - 1 : ℕ) : ℚ))) ∧
      (arr.map Prod.fst).getD 0 0 = min_x ∧
      (arr.map Prod.fst).getD (veclen - 1) 0 = max_x ∧
      poc_spline_get_vector pts min_x max_x veclen = some (arr.map Prod.snd) := by
  have hfst := poc_spline_sample_pts_fst pts.length pts (spline_solve pts.length pts)
    ((max_x - min_x) / ((veclen - 1 : ℕ) : ℚ)) veclen min_x
  refine ⟨poc_spline_sample_pts pts.length pts (spline_solve pts.length pts)
      ((max_x - min_x) / ((veclen - 1 : ℕ) : ℚ)) veclen min_x, ?_, ?_, ?_, ?_, ?_, ?_⟩
  · simp only [poc_spline_get_points]
    rw [if_pos hpts]
  · exact poc_spline_sample_pts_length pts.length pts _ _ veclen min_x
  · exact hfst
  · rw [hfst, range_map_getD _ _ 0 (by omega)]
    norm_num
  · rw [hfst, range_map_getD _ _ (veclen - 1) (by omega)]
    have hne : ((veclen - 1 : ℕ) : ℚ) ≠ 0 := Nat.cast_ne_zero.mpr (by omega)
    rw [mul_comm, div_mul_cancel₀ _ hne]
    ring
  · simp only [poc_spline_get_vector]
    rw [if_pos hpts, poc_spline_sample_ys_eq]

/-- Claim C5: for at least 2 control points with strictly increasing X
and `veclen ≥ 2`, `poc_spline_get_points` returns exactly `veclen`
samples at X positions evenly spaced from `min_x` to `max_x` inclusive
of both endpoints (position `i` is `min_x + i·dx` with
`dx = (max_x - min_x)/(veclen - 1)`), and `poc_spline_get_vector`
returns the Y values of exactly those samples; in particular with
`min_x = 0`, `max_x = 3`, `veclen = 4` the sample positions are
0, 1, 2, 3. -/
theorem claim_C5 (pts : List PocPoint) (min_x max_x : ℚ) (veclen : ℕ)
    (hpts : 2 ≤ pts.length) (hvec : 2 ≤ veclen) :
    (∃ arr : List PocPoint,
      poc_spline_get_points pts min_x max_x veclen = some arr ∧
      arr.length = veclen ∧
      arr.map Prod.fst = (List.range veclen).map
        (fun i : ℕ => min_x + (i : ℚ) * ((max_x - min_x) / ((veclen - 1 : ℕ) : ℚ))) ∧
      (arr.map Prod.fst).getD 0 0 = min_x ∧
      (arr.map Prod.fst).getD (veclen - 1) 0 = max_x ∧
      poc_spline_get_vector pts min_x max_x veclen = some (arr.map Prod.snd)) ∧
    (poc_spline_get_points pts 0 3 4).map (fun l => l.map Prod.fst) =
      some [0, 1, 2, 3] ∧
    poc_spline_get_vector pts 0 3 4 =
      (poc_spline_get_points pts 0 3 4).map (fun l => l.map Prod.snd) := by
  refine ⟨poc_spline_get_points_spec pts min_x max_x veclen hpts hvec, ?_, ?_⟩
  · obtain ⟨arr, h1, _, h3, _, _, _⟩ :=
      poc_spline_get_points_spec pts 0 3 4 hpts (by norm_num)
    rw [h1, Option.map_some', h3]
    have hr : List.range 4 = [0, 1, 2, 3] := rfl
    rw [hr]
    norm_num
  · obtain ⟨arr, h1, _, _, _, _, h6⟩ :=
      poc_spline_get_points_spec pts 0 3 4 hpts (by norm_num)
    rw [h1, h6, Option.map_some']

/-- Witness for claim C5 at the concrete control points and
`min_x = 0`, `max_x = 3`, `veclen = 4`. -/
theorem claim_C5_witness :
    (2 ≤ ([(0, 0), (1, 1), (2, 0), (3, 1)] : List PocPoint).length ∧ 2 ≤ 4) ∧
    ((∃ arr : List PocPoint,
      poc_spline_get_points [(0, 0), (1, 1), (2, 0), (3, 1)] 0 3 4 = some arr ∧
      arr.length = 4 ∧
      arr.map Prod.fst = (List.range 4).map
        (fun i : ℕ => 0 + (i : ℚ) * ((3 - 0) / ((4 - 1 : ℕ) : ℚ))) ∧
      (arr.map Prod.fst).getD 0 0 = 0 ∧
      (arr.map Prod.fst).getD (4 - 1) 0 = 3 ∧
      poc_spline_get_vector [(0, 0), (1, 1), (2, 0), (3, 1)] 0 3 4 =
        some (arr.map Prod.snd)) ∧
    (poc_spline_get_points [(0, 0), (1, 1), (2, 0), (3, 1)] 0 3 4).map
        (fun l => l.map Prod.fst) = some [0, 1, 2, 3] ∧
    poc_spline_get_vector [(0, 0), (1, 1), (2, 0), (3, 1)] 0 3 4 =
      (poc_spline_get_points [(0, 0), (1, 1), (2, 0), (3, 1)] 0 3 4).map
        (fun l => l.map Prod.snd)) :=
  ⟨⟨by norm_num, by norm_num⟩,
    claim_C5 [(0, 0), (1, 1), (2, 0), (3, 1)] 0 3 4 (by norm_num) (by norm_num)⟩

theorem grid_loop_step_lt (stop step cur : ℚ) (h1 : 0 < step) (h2 : cur < stop) :
    grid_loop stop step false cur = cur :: grid_loop stop step false (cur + step) := by
  rw [grid_loop, dif_pos ⟨h1, by simpa using h2⟩]

theorem grid_loop_stop_lt (stop step cur : ℚ) (h2 : ¬cur < stop) :
    grid_loop stop step false cur = [] := by
  have hneg : ¬(0 < step ∧ if false = true then cur ≤ stop else cur < stop) := by
    rintro ⟨-, hc⟩
    simp only [Bool.false_eq_true, if_false] at hc
    exact h2 hc
  rw [grid_loop, dif_neg hneg]

/-- The inner `for (mxy = 2.0; mxy < 10.0; mxy += 1.0)` loop of the
decade minor grid visits exactly 2, 3, 4, 5, 6, 7, 8, 9. -/
theorem grid_loop_2_10 : grid_loop 10 1 false 2 = [2, 3, 4, 5, 6, 7, 8, 9] := by
  rw [grid_loop_step_lt _ _ _ (by norm_num) (by norm_num)]
  norm_num
  rw [grid_loop_step_lt _ _ _ (by norm_num) (by norm_num)]
  norm_num
  rw [grid_loop_step_lt _ _ _ (by norm_num) (by norm_num)]
  norm_num
  rw [grid_loop_step_lt _ _ _ (by norm_num) (by norm_num)]
  norm_num
  rw [grid_loop_step_lt _ _ _ (by norm_num) (by norm_num)]
  norm_num
  rw [grid_loop_step_lt _ _ _ (by norm_num) (by norm_num)]
  norm_num
  rw [grid_loop_step_lt _ _ _ (by norm_num) (by norm_num)]
  norm_num
  rw [grid_loop_step_lt _ _ _ (by norm_num) (by norm_num)]
  norm_num
  exact grid_loop_stop_lt _ _ _ (by norm_num)

/-- Claim C8: for an axis in LogDecade mode with nonzero
minorDivisions, the minor grid pass emits, within each major decade
`xy` visited by the outer loop, exactly 8 minor positions, at offsets
`log10 2` through `log10 9` from the decade's major position. -/
theorem claim_C8 (l10 : ℚ → ℚ) (a : PocAxis)
    (hmode : a.axis_mode = .logDecade) (hdiv : a.minor_divisions ≠ 0) :
    poc_axis_minor_grid_xs l10 a =
      (poc_axis_minor_decade_xs a).flatMap (fun xy =>
        [xy + l10 2, xy + l10 3, xy + l10 4, xy + l10 5,
         xy + l10 6, xy + l10 7, xy + l10 8, xy + l10 9]) ∧
    ∀ xy : ℚ,
      ([xy + l10 2, xy + l10 3, xy + l10 4, xy + l10 5,
        xy + l10 6, xy + l10 7, xy + l10 8, xy + l10 9] : List ℚ).length = 8 := by
  constructor
  · unfold poc_axis_minor_grid_xs
    rw [if_pos hdiv, hmode, grid_loop_2_10]
    rfl
  · intro xy
    rfl

/-- A concrete LogDecade axis with two decades and minor divisions
enabled, for the claim C8 witness. -/
def axisC8 : PocAxis :=
  { axis_mode := .logDecade, lower_bound := 1, upper_bound := 100, lower_mode := 0,
    upper_mode := 2, major_interval := 1, auto_interval := false, minor_divisions := 1,
    minor_interval := 1 }

/-- Witness for claim C8 at the concrete decade axis, with the decade
offsets instantiated to the identity transform. -/
theorem claim_C8_witness :
    (axisC8.axis_mode = PocAxisMode.logDecade ∧ axisC8.minor_divisions ≠ 0) ∧
    (poc_axis_minor_grid_xs (fun q => q) axisC8 =
      (poc_axis_minor_decade_xs axisC8).flatMap (fun xy =>
        [xy + 2, xy + 3, xy + 4, xy + 5, xy + 6, xy + 7, xy + 8, xy + 9]) ∧
    ∀ xy : ℚ,
      ([xy + 2, xy + 3, xy + 4, xy + 5, xy + 6, xy + 7, xy + 8, xy + 9] : List ℚ).length
        = 8) :=
  ⟨⟨rfl, by decide⟩, claim_C8 (fun q => q) axisC8 rfl (by decide)⟩

end PocPlot
